import Mathlib

/-!
Shallow embedding of the Point Sampling & Defect Scoring Engine of
`image_comparison_tool.py` (class `ImageComparisonTool`), together with
theorems settling the specification claims.

Conventions of the embedding:
* a decoded image buffer is a total pixel map plus its dimensions
  (`Image`); `pixel y x` is the triple `image[y, x]` in RGB channel order;
* machine floats of the source are modelled by exact arithmetic: the
  significance threshold and pass rates are rationals, `np.sqrt` is
  `Real.sqrt`;
* fallible code (`random.randint` raising `ValueError`, the
  `ZeroDivisionError` of the grid branch at `num_points = 0`) is modelled
  with `Except Unit`;
* the nondeterminism of `random.randint` is modelled by an oracle
  `rng : Nat -> Nat` supplying one draw per call; `randint lo hi c`
  returns `lo + c % (hi - lo + 1)`, which ranges exactly over `[lo, hi]`.
-/

/-- A decoded color buffer: `pixel y x` is the channel triple (R, G, B) at
row `y`, column `x`, mirroring `self.reference_image[y, x]` after the
BGR-to-RGB conversion of `load_images`. -/
structure Image where
  width : Nat
  height : Nat
  pixel : Nat → Nat → Nat × Nat × Nat

/-- Engine state of class `ImageComparisonTool`: the two optionally loaded
buffers, the last generated test points and the significance threshold. -/
structure ImageComparisonTool where
  reference_image : Option Image
  test_image : Option Image
  test_points : List (Int × Int)
  significance_threshold : ℚ

/-- `EXCELLENT_THRESHOLD = 95.0` of the source. -/
def EXCELLENT_THRESHOLD : ℚ := 95

/-- `GOOD_THRESHOLD = 87.5` of the source. -/
def GOOD_THRESHOLD : ℚ := 87.5

/-- `ACCEPTABLE_THRESHOLD = 75.0` of the source. -/
def ACCEPTABLE_THRESHOLD : ℚ := 75

/-- `GRADE_EXCELLENT` of the source. -/
def GRADE_EXCELLENT : String := "EXCELLENT"

/-- `GRADE_GOOD` of the source. -/
def GRADE_GOOD : String := "GOOD"

/-- `GRADE_ACCEPTABLE` of the source. -/
def GRADE_ACCEPTABLE : String := "ACCEPTABLE"

/-- `GRADE_FAIL` of the source. -/
def GRADE_FAIL : String := "FAIL"

/-- One entry of the result list built by `compare_pixels` (the Python
dict).  The source stores `total_difference = np.sqrt(r_diff**2 +
g_diff**2 + b_diff**2)`; the record keeps the exact radicand
`total_diff_sq` and `PointResult.total_difference` recovers the real
value, so the whole record stays computable.  `is_significant` holds the
boolean of `total_diff > self.significance_threshold`, encoded without
the square root as `threshold < 0 ∨ threshold² < total_diff_sq`, which is
equivalent for every threshold (lemma `is_significant_iff_sqrt`). -/
structure PointResult where
  point_id : Nat
  coordinates : Int × Int
  reference_rgb : Nat × Nat × Nat
  test_rgb : Nat × Nat × Nat
  rgb_difference : Int × Int × Int
  total_diff_sq : Int
  is_significant : Bool
deriving Repr, DecidableEq

/-- The scalar defect score of the source:
`np.sqrt(r_diff**2 + g_diff**2 + b_diff**2)`. -/
noncomputable def PointResult.total_difference (p : PointResult) : ℝ :=
  Real.sqrt (p.total_diff_sq : ℝ)

/-- The loop body of `compare_pixels` for the `i`-th point `(x, y)`
(0-based `i`; the dict stores `point_id = i + 1`). -/
def comparePoint (ref test : Image) (threshold : ℚ) (i : Nat)
    (p : Int × Int) : PointResult :=
  let ref_pixel := ref.pixel p.2.toNat p.1.toNat
  let test_pixel := test.pixel p.2.toNat p.1.toNat
  let r_diff : Int := (test_pixel.1 : Int) - (ref_pixel.1 : Int)
  let g_diff : Int := (test_pixel.2.1 : Int) - (ref_pixel.2.1 : Int)
  let b_diff : Int := (test_pixel.2.2 : Int) - (ref_pixel.2.2 : Int)
  let total_sq : Int := r_diff ^ 2 + g_diff ^ 2 + b_diff ^ 2
  { point_id := i + 1
    coordinates := p
    reference_rgb := ref_pixel
    test_rgb := test_pixel
    rgb_difference := (r_diff, g_diff, b_diff)
    total_diff_sq := total_sq
    is_significant := decide (threshold < 0 ∨ threshold ^ 2 < (total_sq : ℚ)) }

/-- `compare_pixels`: returns `[]` when no test points were generated or
one of the images is not loaded, otherwise one `PointResult` per stored
test point, in order. -/
def compare_pixels (t : ImageComparisonTool) : List PointResult :=
  if t.test_points.isEmpty then []
  else
    match t.reference_image, t.test_image with
    | some ref, some test =>
        t.test_points.enum.map fun ip =>
          comparePoint ref test t.significance_threshold ip.1 ip.2
    | _, _ => []

/-- `_calculate_quality_grade`: maps a pass rate to a (grade, description)
pair by the highest-first inclusive thresholds of the source. -/
def calculate_quality_grade (pass_rate : ℚ) : String × String :=
  if EXCELLENT_THRESHOLD ≤ pass_rate then
    (GRADE_EXCELLENT,
      "No significant pixel defects detected. Image is suitable for production use.")
  else if GOOD_THRESHOLD ≤ pass_rate then
    (GRADE_GOOD,
      "Minor pixel defects detected but within acceptable limits. Image quality is good.")
  else if ACCEPTABLE_THRESHOLD ≤ pass_rate then
    (GRADE_ACCEPTABLE,
      "Some pixel defects detected but still within acceptable range. Consider monitoring.")
  else
    (GRADE_FAIL,
      "Significant pixel defects detected. Image quality is below acceptable standards.")

/-- `random.randint(lo, hi)`: raises `ValueError` when `lo > hi`,
otherwise returns some integer of the inclusive range `[lo, hi]`; the
oracle draw `c` selects which one, and every value of the range is
reached by some `c`. -/
def randint (lo hi : Int) (c : Nat) : Except Unit Int :=
  if lo ≤ hi then .ok (lo + ((c : Int) % (hi - lo + 1))) else .error ()

/-- The `random` branch: `n` iterations appending
`(randint(10, width-10), randint(10, height-10))`; the index `i` numbers
the oracle draws. -/
def randomPoints (w h : Nat) (rng : Nat → Nat) :
    Nat → Nat → Except Unit (List (Int × Int))
  | _, 0 => .ok []
  | i, n + 1 => do
    let x ← randint 10 ((w : Int) - 10) (rng (2 * i))
    let y ← randint 10 ((h : Int) - 10) (rng (2 * i + 1))
    let rest ← randomPoints w h rng (i + 1) n
    return (x, y) :: rest

/-- Helper for `floorSqrt`: the largest `k` below the fuel bound with
`k * k ≤ n`, by structural recursion (so that concrete grid instances
evaluate inside the kernel, which `Nat.sqrt` does not). -/
def floorSqrtAux (n : Nat) : Nat → Nat
  | 0 => 0
  | k + 1 => if (k + 1) * (k + 1) ≤ n then k + 1 else floorSqrtAux n k

/-- `int(np.sqrt(n))` of the source: the floor square root (proved equal
to `Nat.sqrt` in `floorSqrt_eq_sqrt`). -/
def floorSqrt (n : Nat) : Nat := floorSqrtAux n n

/-- The `grid` branch: `cols = int(np.sqrt(n))`,
`rows = int(np.ceil(n / cols))` (exact ceiling division; divides by zero
when `cols = 0`, i.e. `n = 0`), row-major lattice points
`(int((j+1)*w/(cols+1)), int((i+1)*h/(rows+1)))`, emission stopping once
`n` points are appended. -/
def gridPoints (w h n : Nat) : Except Unit (List (Int × Int)) :=
  let cols := floorSqrt n
  if cols = 0 then .error ()
  else
    let rows := (n + cols - 1) / cols
    .ok (((List.range rows).flatMap fun i =>
      (List.range cols).map fun j =>
        ((((j + 1) * w / (cols + 1) : Nat) : Int),
         (((i + 1) * h / (rows + 1) : Nat) : Int))).take n)

/-- The `strategic` branch: the fixed 8-candidate catalogue (margin 50),
truncated to the first `n` entries. -/
def strategicPoints (w h n : Nat) : List (Int × Int) :=
  let margin : Int := 50
  ([(margin, margin),
    ((w : Int) - margin, margin),
    (margin, (h : Int) - margin),
    ((w : Int) - margin, (h : Int) - margin),
    ((w : Int) / 2, (h : Int) / 2),
    ((w : Int) / 4, (h : Int) / 4),
    (3 * (w : Int) / 4, (h : Int) / 4),
    ((w : Int) / 2, 3 * (h : Int) / 4)]).take n

/-- Bounds check of the `custom` branch:
`0 <= x < width and 0 <= y < height`. -/
def inBounds (w h : Nat) (p : Int × Int) : Bool :=
  decide (0 ≤ p.1 ∧ p.1 < (w : Int) ∧ 0 ≤ p.2 ∧ p.2 < (h : Int))

/-- The `custom` branch: keep the caller's points that pass the bounds
check, in order. -/
def customPoints (w h : Nat) (pts : List (Int × Int)) : List (Int × Int) :=
  pts.filter (inBounds w h)

/-- `generate_test_points`: dispatch on the method string.  Returns
`.ok []` when no reference image is loaded, when the method is unknown,
or when `method = "custom"` without a non-empty custom point list (the
Python `and custom_points` truthiness test). -/
def generate_test_points (t : ImageComparisonTool) (num_points : Nat)
    (method : String) (custom_points : Option (List (Int × Int)))
    (rng : Nat → Nat) : Except Unit (List (Int × Int)) :=
  match t.reference_image with
  | none => .ok []
  | some img =>
    let width := img.width
    let height := img.height
    if method = "custom" then
      match custom_points with
      | some (p :: ps) => .ok (customPoints width height (p :: ps))
      | _ => .ok []
    else if method = "random" then
      randomPoints width height rng 0 num_points
    else if method = "grid" then
      gridPoints width height num_points
    else if method = "strategic" then
      .ok (strategicPoints width height num_points)
    else
      .ok []

/-! ### Concrete instances used in witnesses and counterexamples -/

/-- A constant-color 100 x 100 image. -/
def img100 : Image := ⟨100, 100, fun _ _ => (10, 20, 30)⟩

/-- A constant-color 2 x 2 image. -/
def img2 : Image := ⟨2, 2, fun _ _ => (10, 10, 10)⟩

/-- A constant-color 3 x 3 image. -/
def img3 : Image := ⟨3, 3, fun _ _ => (10, 10, 10)⟩

/-- A constant-color 40 x 40 image (smaller than the strategic margin). -/
def img40 : Image := ⟨40, 40, fun _ _ => (0, 0, 0)⟩

/-- A constant-color 15 x 15 image (narrower than the random margin). -/
def img15 : Image := ⟨15, 15, fun _ _ => (0, 0, 0)⟩

/-- A constant-color 800 x 600 image (the grid scenario of the spec). -/
def img800 : Image := ⟨800, 600, fun _ _ => (0, 0, 0)⟩

/-- A constant oracle for the random generator. -/
def rng0 : Nat → Nat := fun _ => 0

/-- Engine with both 100 x 100 images loaded, two test points,
threshold 30. -/
def tool100 : ImageComparisonTool :=
  ⟨some img100, some img100, [(1, 1), (2, 2)], 30⟩

/-- Engine loaded with buffers of different dimensions (2 x 2 vs 3 x 3). -/
def mismatchTool : ImageComparisonTool := ⟨some img2, some img3, [(0, 0)], 30⟩

/-- Engine with the 40 x 40 image loaded. -/
def tool40 : ImageComparisonTool := ⟨some img40, some img40, [], 30⟩

/-- Engine with the 15 x 15 image loaded. -/
def tool15 : ImageComparisonTool := ⟨some img15, some img15, [], 30⟩

/-- Engine with the 800 x 600 image loaded. -/
def tool800 : ImageComparisonTool := ⟨some img800, some img800, [], 30⟩

/-- Engine with no image loaded. -/
def toolEmpty : ImageComparisonTool := ⟨none, none, [], 30⟩

/-- The points the grid strategy produces for count 8 on 800 x 600:
2 columns, 4 rows. -/
def grid800points : List (Int × Int) :=
  [(266, 120), (533, 120), (266, 240), (533, 240),
   (266, 360), (533, 360), (266, 480), (533, 480)]

/-- The point list the claim's words describe for count 8 on 800 x 600: a
3 x 3 lattice spaced (800/4, 600/4), truncated to 8 points. -/
def grid800threeByThree : List (Int × Int) :=
  [(200, 150), (400, 150), (600, 150), (200, 300),
   (400, 300), (600, 300), (200, 450), (400, 450)]

/-- The first point of `tool100`, as built by `compare_pixels`. -/
def pointW : PointResult := comparePoint img100 img100 30 0 (1, 1)

/-! ### Helper lemmas -/

/-- The boolean stored in `is_significant` agrees with the source's
`np.sqrt(total_diff_sq) > threshold` for every threshold. -/
theorem is_significant_iff_sqrt (s : ℤ) (th : ℚ) :
    (decide (th < 0 ∨ th ^ 2 < (s : ℚ)) = true) ↔
      (th : ℝ) < Real.sqrt (s : ℝ) := by
  rw [decide_eq_true_iff]
  by_cases hth : th < 0
  · simp only [hth, true_or, true_iff]
    calc (th : ℝ) < 0 := by exact_mod_cast hth
    _ ≤ Real.sqrt (s : ℝ) := Real.sqrt_nonneg _
  · rw [Real.lt_sqrt (by exact_mod_cast not_lt.mp hth)]
    constructor
    · rintro (h | h)
      · exact absurd h hth
      · exact_mod_cast h
    · intro h
      exact Or.inr (by exact_mod_cast h)

/-- Ceiling division bound: `cols * rows ≥ n` for
`rows = (n + cols - 1) / cols`. -/
theorem le_ceil_mul (n c : Nat) (hc : 0 < c) : n ≤ ((n + c - 1) / c) * c := by
  have h1 := Nat.div_add_mod (n + c - 1) c
  have h2 : (n + c - 1) % c < c := Nat.mod_lt _ hc
  obtain ⟨m, hm⟩ : ∃ m, ((n + c - 1) / c) * c = m := ⟨_, rfl⟩
  rw [hm]
  rw [Nat.mul_comm] at hm
  omega

/-- The value of `floorSqrtAux` squares to at most `n`. -/
theorem floorSqrtAux_sq_le (n : Nat) :
    ∀ k, (floorSqrtAux n k) * (floorSqrtAux n k) ≤ n := by
  intro k
  induction k with
  | zero => exact Nat.zero_le n
  | succ m ih =>
    unfold floorSqrtAux
    split
    · assumption
    · exact ih

/-- `floorSqrtAux n k` dominates every `j ≤ k` with `j * j ≤ n`. -/
theorem floorSqrtAux_le_max (n : Nat) :
    ∀ k j, j ≤ k → j * j ≤ n → j ≤ floorSqrtAux n k := by
  intro k
  induction k with
  | zero => intro j hj _; simpa [floorSqrtAux] using hj
  | succ m ih =>
    intro j hj hsq
    unfold floorSqrtAux
    split
    · exact hj
    · rename_i hlt
      by_cases hje : j = m + 1
      · subst hje
        exact absurd hsq hlt
      · exact ih j (by omega) hsq

/-- `floorSqrt` is positive on positive input. -/
theorem floorSqrt_pos (n : Nat) (hn : 1 ≤ n) : 0 < floorSqrt n :=
  floorSqrtAux_le_max n n 1 hn (by simpa using hn)

/-- The structural floor square root agrees with `Nat.sqrt`. -/
theorem floorSqrt_eq_sqrt (n : Nat) : floorSqrt n = Nat.sqrt n :=
  le_antisymm (Nat.le_sqrt.mpr (floorSqrtAux_sq_le n n))
    (floorSqrtAux_le_max n n (Nat.sqrt n) (Nat.sqrt_le_self n)
      (by simpa [pow_two] using Nat.sqrt_le' n))

/-- Reduction of `gridPoints` when the column count is zero. -/
theorem gridPoints_err (w h n : Nat) (hc : floorSqrt n = 0) :
    gridPoints w h n = .error () := by
  unfold gridPoints
  rw [if_pos hc]

/-- Reduction of `gridPoints` when the column count is non-zero. -/
theorem gridPoints_ok (w h n : Nat) (hc : floorSqrt n ≠ 0) :
    gridPoints w h n =
      .ok (((List.range ((n + floorSqrt n - 1) / floorSqrt n)).flatMap fun i =>
        (List.range (floorSqrt n)).map fun j =>
          ((((j + 1) * w / (floorSqrt n + 1) : Nat) : Int),
           (((i + 1) * h /
               (((n + floorSqrt n - 1) / floorSqrt n) + 1) : Nat) : Int))).take n) := by
  unfold gridPoints
  rw [if_neg hc]

/-- A successful `randint lo hi` draw lies in `[lo, hi]` (and the call
succeeds only when `lo ≤ hi`). -/
theorem randint_ok (lo hi : Int) (c : Nat) (x : Int)
    (h : randint lo hi c = .ok x) : lo ≤ x ∧ x ≤ hi := by
  unfold randint at h
  split at h
  · rename_i hle
    have hpos : 0 < hi - lo + 1 := by omega
    have h1 : 0 ≤ (c : Int) % (hi - lo + 1) := Int.emod_nonneg _ (by omega)
    have h2 : (c : Int) % (hi - lo + 1) < hi - lo + 1 := Int.emod_lt_of_pos _ hpos
    cases h
    omega
  · cases h

/-- A successful run of the random branch returns exactly `n` points. -/
theorem randomPoints_ok_length (w h : Nat) (rng : Nat → Nat) :
    ∀ (n i : Nat) (l : List (Int × Int)),
      randomPoints w h rng i n = .ok l → l.length = n := by
  intro n
  induction n with
  | zero => intro i l hl; cases hl; rfl
  | succ m ih =>
    intro i l hl
    unfold randomPoints at hl
    cases hx : randint 10 ((w : Int) - 10) (rng (2 * i)) with
    | error e => rw [hx] at hl; cases hl
    | ok x =>
      rw [hx] at hl
      cases hy : randint 10 ((h : Int) - 10) (rng (2 * i + 1)) with
      | error e => rw [hy] at hl; cases hl
      | ok y =>
        rw [hy] at hl
        cases hr : randomPoints w h rng (i + 1) m with
        | error e => rw [hr] at hl; cases hl
        | ok rest =>
          rw [hr] at hl
          cases hl
          simp [ih (i + 1) rest hr]

/-- Every point of a successful run of the random branch lies in the
`[10, w-10] x [10, h-10]` margin box. -/
theorem randomPoints_ok_mem (w h : Nat) (rng : Nat → Nat) :
    ∀ (n i : Nat) (l : List (Int × Int)),
      randomPoints w h rng i n = .ok l →
      ∀ p ∈ l, 10 ≤ p.1 ∧ p.1 ≤ (w : Int) - 10 ∧
        10 ≤ p.2 ∧ p.2 ≤ (h : Int) - 10 := by
  intro n
  induction n with
  | zero => intro i l hl p hp; cases hl; cases hp
  | succ m ih =>
    intro i l hl p hp
    unfold randomPoints at hl
    cases hx : randint 10 ((w : Int) - 10) (rng (2 * i)) with
    | error e => rw [hx] at hl; cases hl
    | ok x =>
      rw [hx] at hl
      cases hy : randint 10 ((h : Int) - 10) (rng (2 * i + 1)) with
      | error e => rw [hy] at hl; cases hl
      | ok y =>
        rw [hy] at hl
        cases hr : randomPoints w h rng (i + 1) m with
        | error e => rw [hr] at hl; cases hl
        | ok rest =>
          rw [hr] at hl
          cases hl
          rcases List.mem_cons.mp hp with hpeq | hpmem
          · subst hpeq
            obtain ⟨hx1, hx2⟩ := randint_ok _ _ _ _ hx
            obtain ⟨hy1, hy2⟩ := randint_ok _ _ _ _ hy
            exact ⟨hx1, hx2, hy1, hy2⟩
          · exact ih (i + 1) rest hr p hpmem

/-- Any member of the `compare_pixels` output is a `comparePoint` of the
loaded buffers at the active threshold. -/
theorem mem_compare_pixels (t : ImageComparisonTool) (p : PointResult)
    (hp : p ∈ compare_pixels t) :
    ∃ ref test i xy, t.reference_image = some ref ∧ t.test_image = some test ∧
      p = comparePoint ref test t.significance_threshold i xy := by
  unfold compare_pixels at hp
  split at hp
  · cases hp
  · split at hp
    · rename_i ref test h1 h2
      obtain ⟨ip, hmem, hipeq⟩ := List.mem_map.mp hp
      exact ⟨ref, test, ip.1, ip.2, h1, h2, hipeq.symm⟩
    · cases hp

/-- The stored significance boolean of a `comparePoint` record decides
exactly `threshold < total_difference`. -/
theorem comparePoint_significant (ref test : Image) (th : ℚ) (i : Nat)
    (xy : Int × Int) :
    ((comparePoint ref test th i xy).is_significant = true ↔
      (th : ℝ) < (comparePoint ref test th i xy).total_difference) := by
  simp only [comparePoint, PointResult.total_difference]
  exact is_significant_iff_sqrt _ _

/-- With both images loaded and a non-empty point list, `compare_pixels`
is the enumerated map of `comparePoint` over the stored test points. -/
theorem compare_pixels_eq_map (t : ImageComparisonTool) (ref test : Image)
    (href : t.reference_image = some ref) (htest : t.test_image = some test)
    (hne : t.test_points ≠ []) :
    compare_pixels t = t.test_points.enum.map
      (fun ip => comparePoint ref test t.significance_threshold ip.1 ip.2) := by
  have hemp : t.test_points.isEmpty = false := by
    cases hl : t.test_points with
    | nil => exact absurd hl hne
    | cons a l => rfl
  unfold compare_pixels
  rw [href, htest, hemp]
  simp

/-- Dispatch of `generate_test_points` for the random method. -/
theorem generate_eq_random (t : ImageComparisonTool) (img : Image)
    (himg : t.reference_image = some img) (n : Nat)
    (custom : Option (List (Int × Int))) (rng : Nat → Nat) :
    generate_test_points t n "random" custom rng =
      randomPoints img.width img.height rng 0 n := by
  unfold generate_test_points
  rw [himg]
  rfl

/-- Dispatch of `generate_test_points` for the grid method. -/
theorem generate_eq_grid (t : ImageComparisonTool) (img : Image)
    (himg : t.reference_image = some img) (n : Nat)
    (custom : Option (List (Int × Int))) (rng : Nat → Nat) :
    generate_test_points t n "grid" custom rng =
      gridPoints img.width img.height n := by
  unfold generate_test_points
  rw [himg]
  rfl

/-- Dispatch of `generate_test_points` for the strategic method. -/
theorem generate_eq_strategic (t : ImageComparisonTool) (img : Image)
    (himg : t.reference_image = some img) (n : Nat)
    (custom : Option (List (Int × Int))) (rng : Nat → Nat) :
    generate_test_points t n "strategic" custom rng =
      .ok (strategicPoints img.width img.height n) := by
  unfold generate_test_points
  rw [himg]
  rfl

/-- Dispatch of `generate_test_points` for the custom method with a
non-empty point list. -/
theorem generate_eq_custom (t : ImageComparisonTool) (img : Image)
    (himg : t.reference_image = some img) (n : Nat)
    (p : Int × Int) (ps : List (Int × Int)) (rng : Nat → Nat) :
    generate_test_points t n "custom" (some (p :: ps)) rng =
      .ok (customPoints img.width img.height (p :: ps)) := by
  unfold generate_test_points
  rw [himg]
  rfl

/-! ### Claim theorems -/

/-- C2: a `PointResult` produced by `compare_pixels` is significant iff
its `total_difference` strictly exceeds the active threshold; a point
whose `total_difference` equals the threshold exactly is classified not
significant. -/
theorem significant_iff_above_threshold (t : ImageComparisonTool)
    (p : PointResult) (hp : p ∈ compare_pixels t) :
    (p.is_significant = true ↔
      ((t.significance_threshold : ℝ) < p.total_difference)) ∧
    (p.total_difference = (t.significance_threshold : ℝ) →
      p.is_significant = false) := by
  obtain ⟨ref, test, i, xy, _, _, rfl⟩ := mem_compare_pixels t p hp
  have hiff := comparePoint_significant ref test t.significance_threshold i xy
  refine ⟨hiff, fun heq => ?_⟩
  cases hsig : (comparePoint ref test t.significance_threshold i xy).is_significant
  · rfl
  · have := hiff.mp hsig
    rw [heq] at this
    exact absurd this (lt_irrefl _)

/-- Witness for C2 at the concrete engine `tool100`. -/
theorem significant_iff_above_threshold_witness :
    (pointW.is_significant = true ↔
      ((tool100.significance_threshold : ℝ) < pointW.total_difference)) ∧
    (pointW.total_difference = (tool100.significance_threshold : ℝ) →
      pointW.is_significant = false) :=
  significant_iff_above_threshold tool100 pointW (by decide)

/-- C9: comparing (reference, test) and (test, reference) at the same
coordinate yields equal `total_difference` and exactly negated
per-channel differences. -/
theorem compare_swap (ref test : Image) (th : ℚ) (i : Nat) (p : Int × Int) :
    (comparePoint test ref th i p).total_difference
      = (comparePoint ref test th i p).total_difference ∧
    (comparePoint test ref th i p).rgb_difference.1
      = -(comparePoint ref test th i p).rgb_difference.1 ∧
    (comparePoint test ref th i p).rgb_difference.2.1
      = -(comparePoint ref test th i p).rgb_difference.2.1 ∧
    (comparePoint test ref th i p).rgb_difference.2.2
      = -(comparePoint ref test th i p).rgb_difference.2.2 := by
  simp only [comparePoint, PointResult.total_difference]
  refine ⟨?_, by ring, by ring, by ring⟩
  congr 1
  push_cast
  ring

/-- C3: the quality grader maps pass rates by highest-first inclusive
thresholds 95 / 87.5 / 75, and the four boundary rates 95, 87.5, 75,
74.999 map to EXCELLENT, GOOD, ACCEPTABLE, FAIL. -/
theorem quality_grade_thresholds :
    (∀ pass_rate : ℚ, 0 ≤ pass_rate → pass_rate ≤ 100 →
      ((calculate_quality_grade pass_rate).1 = GRADE_EXCELLENT ↔
        95 ≤ pass_rate) ∧
      ((calculate_quality_grade pass_rate).1 = GRADE_GOOD ↔
        87.5 ≤ pass_rate ∧ pass_rate < 95) ∧
      ((calculate_quality_grade pass_rate).1 = GRADE_ACCEPTABLE ↔
        75 ≤ pass_rate ∧ pass_rate < 87.5) ∧
      ((calculate_quality_grade pass_rate).1 = GRADE_FAIL ↔
        pass_rate < 75)) ∧
    (calculate_quality_grade 95).1 = GRADE_EXCELLENT ∧
    (calculate_quality_grade 87.5).1 = GRADE_GOOD ∧
    (calculate_quality_grade 75).1 = GRADE_ACCEPTABLE ∧
    (calculate_quality_grade 74.999).1 = GRADE_FAIL := by
  have g1 : GRADE_EXCELLENT ≠ GRADE_GOOD := by decide
  have g2 : GRADE_EXCELLENT ≠ GRADE_ACCEPTABLE := by decide
  have g3 : GRADE_EXCELLENT ≠ GRADE_FAIL := by decide
  have g4 : GRADE_GOOD ≠ GRADE_ACCEPTABLE := by decide
  have g5 : GRADE_GOOD ≠ GRADE_FAIL := by decide
  have g6 : GRADE_ACCEPTABLE ≠ GRADE_FAIL := by decide
  refine ⟨?_,
    by norm_num [calculate_quality_grade, EXCELLENT_THRESHOLD],
    by norm_num [calculate_quality_grade, EXCELLENT_THRESHOLD, GOOD_THRESHOLD],
    by norm_num [calculate_quality_grade, EXCELLENT_THRESHOLD, GOOD_THRESHOLD,
      ACCEPTABLE_THRESHOLD],
    by norm_num [calculate_quality_grade, EXCELLENT_THRESHOLD, GOOD_THRESHOLD,
      ACCEPTABLE_THRESHOLD]⟩
  intro pr h0 h100
  unfold calculate_quality_grade EXCELLENT_THRESHOLD GOOD_THRESHOLD ACCEPTABLE_THRESHOLD
  split_ifs with h1 h2 h3
  · exact ⟨⟨fun _ => h1, fun _ => rfl⟩,
      ⟨fun h => absurd h g1, fun h => absurd h1 (by linarith [h.2])⟩,
      ⟨fun h => absurd h g2, fun h => absurd h1 (by linarith [h.2])⟩,
      ⟨fun h => absurd h g3, fun h => absurd h1 (by linarith)⟩⟩
  · exact ⟨⟨fun h => absurd h (Ne.symm g1), fun h => absurd h h1⟩,
      ⟨fun _ => ⟨h2, not_le.mp h1⟩, fun _ => rfl⟩,
      ⟨fun h => absurd h g4, fun h => absurd h2 (by linarith [h.2])⟩,
      ⟨fun h => absurd h g5, fun h => absurd h2 (by linarith)⟩⟩
  · exact ⟨⟨fun h => absurd h (Ne.symm g2), fun h => absurd h h1⟩,
      ⟨fun h => absurd h (Ne.symm g4), fun h => absurd h.1 h2⟩,
      ⟨fun _ => ⟨h3, not_le.mp h2⟩, fun _ => rfl⟩,
      ⟨fun h => absurd h g6, fun h => absurd h3 (by linarith)⟩⟩
  · exact ⟨⟨fun h => absurd h (Ne.symm g3), fun h => absurd h h1⟩,
      ⟨fun h => absurd h (Ne.symm g5), fun h => absurd h.1 h2⟩,
      ⟨fun h => absurd h (Ne.symm g6), fun h => absurd h.1 h3⟩,
      ⟨fun _ => not_le.mp h3, fun _ => rfl⟩⟩

/-- Witness for C3 at the concrete pass rate 80. -/
theorem quality_grade_thresholds_witness :
    (calculate_quality_grade 80).1 = GRADE_ACCEPTABLE :=
  ((quality_grade_thresholds.1 80 (by norm_num) (by norm_num)).2.2.1).mpr
    (by norm_num)

/-- C1: for a loaded pair of equal-sized images and a non-empty in-bounds
coordinate list, `compare_pixels` returns one `PointResult` per
coordinate, in input order; the result at 0-based position `k` has
`point_id = k + 1`, carries the `k`-th input coordinate, stores the
signed unclamped per-channel differences test minus reference, and its
`total_difference` is `sqrt(diff_r ^ 2 + diff_g ^ 2 + diff_b ^ 2)`. -/
theorem compare_pixels_output (t : ImageComparisonTool) (ref test : Image)
    (href : t.reference_image = some ref) (htest : t.test_image = some test)
    (hw : ref.width = test.width) (hh : ref.height = test.height)
    (hne : t.test_points ≠ [])
    (hbd : ∀ p ∈ t.test_points, inBounds ref.width ref.height p = true) :
    (compare_pixels t).length = t.test_points.length ∧
    ∀ k (hk : k < t.test_points.length)
      (hk' : k < (compare_pixels t).length),
      ((compare_pixels t)[k]).point_id = k + 1 ∧
      ((compare_pixels t)[k]).coordinates = t.test_points[k] ∧
      ((compare_pixels t)[k]).rgb_difference =
        (((test.pixel (t.test_points[k]).2.toNat (t.test_points[k]).1.toNat).1 : Int)
           - ((ref.pixel (t.test_points[k]).2.toNat (t.test_points[k]).1.toNat).1 : Int),
         ((test.pixel (t.test_points[k]).2.toNat (t.test_points[k]).1.toNat).2.1 : Int)
           - ((ref.pixel (t.test_points[k]).2.toNat (t.test_points[k]).1.toNat).2.1 : Int),
         ((test.pixel (t.test_points[k]).2.toNat (t.test_points[k]).1.toNat).2.2 : Int)
           - ((ref.pixel (t.test_points[k]).2.toNat (t.test_points[k]).1.toNat).2.2 : Int)) ∧
      ((compare_pixels t)[k]).total_difference =
        Real.sqrt
          (((((test.pixel (t.test_points[k]).2.toNat (t.test_points[k]).1.toNat).1 : Int)
               - ((ref.pixel (t.test_points[k]).2.toNat (t.test_points[k]).1.toNat).1 : Int)) ^ 2
            + (((test.pixel (t.test_points[k]).2.toNat (t.test_points[k]).1.toNat).2.1 : Int)
               - ((ref.pixel (t.test_points[k]).2.toNat (t.test_points[k]).1.toNat).2.1 : Int)) ^ 2
            + (((test.pixel (t.test_points[k]).2.toNat (t.test_points[k]).1.toNat).2.2 : Int)
               - ((ref.pixel (t.test_points[k]).2.toNat (t.test_points[k]).1.toNat).2.2 : Int)) ^ 2
            : Int) : ℝ) := by
  have hq := compare_pixels_eq_map t ref test href htest hne
  constructor
  · rw [hq]
    simp [List.enum_length]
  · intro k hk hk'
    have hget : (compare_pixels t)[k] =
        comparePoint ref test t.significance_threshold k (t.test_points[k]) := by
      simp [hq, List.getElem_map, List.getElem_enum]
    rw [hget]
    exact ⟨rfl, rfl, rfl, rfl⟩

/-- Witness for C1 at the concrete engine `tool100`. -/
theorem compare_pixels_output_witness :
    (compare_pixels tool100).length = tool100.test_points.length :=
  (compare_pixels_output tool100 img100 img100 rfl rfl rfl rfl (by decide)
    (by decide)).1

/-- C4 (amended): `compare_pixels` performs no dimension check — for
loaded buffers of differing widths or heights and a non-empty point list
whose coordinates lie inside both buffers, it still produces one
`PointResult` per coordinate instead of rejecting the pair.  (The
in-bounds hypothesis matters: a stored point outside either buffer makes
the source raise `IndexError` at `image[y, x]` instead of returning
results, so only in-bounds lists reach the loop's end.) -/
theorem compare_ignores_dimensions (t : ImageComparisonTool)
    (ref test : Image)
    (href : t.reference_image = some ref) (htest : t.test_image = some test)
    (hne : t.test_points ≠ [])
    (hdim : ref.width ≠ test.width ∨ ref.height ≠ test.height)
    (hbd : ∀ p ∈ t.test_points, inBounds ref.width ref.height p = true ∧
      inBounds test.width test.height p = true) :
    (compare_pixels t).length = t.test_points.length ∧
    compare_pixels t ≠ [] := by
  have hq := compare_pixels_eq_map t ref test href htest hne
  have hlen : (compare_pixels t).length = t.test_points.length := by
    rw [hq]
    simp [List.enum_length]
  refine ⟨hlen, fun hnil => ?_⟩
  rw [hnil] at hlen
  exact hne (List.eq_nil_of_length_eq_zero hlen.symm)

/-- Counterexample for C4: the engine holding a 2 x 2 reference and a
3 x 3 test buffer does not reject the pair — `compare_pixels` yields a
result instead of the empty list. -/
theorem mismatch_not_rejected :
    img2.width ≠ img3.width ∧ (compare_pixels mismatchTool).length = 1 :=
  ⟨by decide, rfl⟩

/-- Witness for the amended C4 at the concrete mismatched engine. -/
theorem compare_ignores_dimensions_witness :
    (compare_pixels mismatchTool).length = mismatchTool.test_points.length ∧
    compare_pixels mismatchTool ≠ [] :=
  compare_ignores_dimensions mismatchTool img2 img3 rfl rfl (by decide)
    (Or.inl (by decide)) (by decide)

/-- C10: for every requested count `n ≥ 1` the grid strategy succeeds and
returns exactly `n` coordinates, because with `cols = floor(sqrt n)` and
`rows = ceil(n / cols)` the lattice always has `rows * cols ≥ n` cells,
so the stop-early truncation never runs short. -/
theorem grid_exact_count (t : ImageComparisonTool) (img : Image)
    (himg : t.reference_image = some img) (n : Nat) (hn : 1 ≤ n)
    (custom : Option (List (Int × Int))) (rng : Nat → Nat) :
    n ≤ ((n + floorSqrt n - 1) / floorSqrt n) * floorSqrt n ∧
    ∃ pts, generate_test_points t n "grid" custom rng = .ok pts ∧
      pts.length = n := by
  have hc : 0 < floorSqrt n := floorSqrt_pos n hn
  have hle := le_ceil_mul n (floorSqrt n) hc
  refine ⟨hle, ?_⟩
  rw [generate_eq_grid t img himg n custom rng]
  rw [gridPoints_ok _ _ _ (Nat.pos_iff_ne_zero.mp hc)]
  refine ⟨_, rfl, ?_⟩
  simp only [List.length_take, List.length_flatMap, Function.comp_def,
    List.length_map, List.length_range, List.map_const', List.sum_replicate,
    smul_eq_mul]
  exact min_eq_left hle

/-- Witness for C10 at count 5 on the concrete engine `tool100`. -/
theorem grid_exact_count_witness :
    5 ≤ ((5 + floorSqrt 5 - 1) / floorSqrt 5) * floorSqrt 5 ∧
    ∃ pts, generate_test_points tool100 5 "grid" none rng0 = .ok pts ∧
      pts.length = 5 :=
  grid_exact_count tool100 img100 rfl 5 (by decide) none rng0

/-- Lattice cell coordinates stay below the image extent:
`a * b / (k + 1) < b` whenever `a ≤ k` and `0 < b`. -/
theorem lattice_coord_lt (a b k : Nat) (hb : 0 < b) (ha : a ≤ k) :
    a * b / (k + 1) < b := by
  have h1 : a * b < b * (k + 1) := by
    calc a * b ≤ k * b := mul_le_mul_right' ha b
    _ = b * k := Nat.mul_comm k b
    _ < b * (k + 1) := mul_lt_mul_of_pos_left (Nat.lt_succ_self k) hb
  exact (Nat.div_lt_iff_lt_mul (Nat.succ_pos k)).mpr h1

/-- Dispatch of `generate_test_points` for the custom method, covering
every shape of the caller-supplied list (the Python truthiness test). -/
theorem generate_custom_match (t : ImageComparisonTool) (img : Image)
    (himg : t.reference_image = some img) (n : Nat)
    (custom : Option (List (Int × Int))) (rng : Nat → Nat) :
    generate_test_points t n "custom" custom rng =
      .ok (match custom with
        | some (p :: ps) => customPoints img.width img.height (p :: ps)
        | _ => []) := by
  unfold generate_test_points
  rw [himg]
  rcases custom with _ | ⟨_ | ⟨q, qs⟩⟩ <;> rfl

/-- Dispatch of `generate_test_points` for an unknown method string:
no branch fires and the empty list is returned. -/
theorem generate_unknown_method (t : ImageComparisonTool) (img : Image)
    (himg : t.reference_image = some img) (n : Nat) (method : String)
    (custom : Option (List (Int × Int))) (rng : Nat → Nat)
    (hm1 : method ≠ "custom") (hm2 : method ≠ "random")
    (hm3 : method ≠ "grid") (hm4 : method ≠ "strategic") :
    generate_test_points t n method custom rng = .ok [] := by
  unfold generate_test_points
  rw [himg]
  simp [hm1, hm2, hm3, hm4]

/-- C5 (amended): for the random, grid and strategic strategies the
returned coordinate count never exceeds the requested count, and the
strategic strategy additionally never exceeds 8; the custom strategy is
excluded because it ignores the requested count. -/
theorem sample_count_le (t : ImageComparisonTool) (img : Image)
    (himg : t.reference_image = some img) (n : Nat) (method : String)
    (custom : Option (List (Int × Int))) (rng : Nat → Nat)
    (pts : List (Int × Int))
    (hm : method = "random" ∨ method = "grid" ∨ method = "strategic")
    (hok : generate_test_points t n method custom rng = .ok pts) :
    pts.length ≤ n ∧ (method = "strategic" → pts.length ≤ 8) := by
  rcases hm with rfl | rfl | rfl
  · rw [generate_eq_random t img himg n custom rng] at hok
    have hlen := randomPoints_ok_length img.width img.height rng n 0 pts hok
    exact ⟨le_of_eq hlen, fun h => absurd h (by decide)⟩
  · rw [generate_eq_grid t img himg n custom rng] at hok
    by_cases hc : floorSqrt n = 0
    · rw [gridPoints_err _ _ _ hc] at hok
      exact Except.noConfusion hok
    · rw [gridPoints_ok _ _ _ hc] at hok
      injection hok with hok
      subst hok
      refine ⟨?_, fun h => absurd h (by decide)⟩
      rw [List.length_take]
      exact min_le_left _ _
  · rw [generate_eq_strategic t img himg n custom rng] at hok
    injection hok with hok
    subst hok
    refine ⟨?_, fun _ => ?_⟩
    · simp only [strategicPoints, List.length_take, List.length_cons,
        List.length_nil]
      omega
    · simp only [strategicPoints, List.length_take, List.length_cons,
        List.length_nil]
      omega

/-- Counterexample for C5: the custom strategy ignores the requested
count — asked for 1 point but handed 2 valid custom points, it returns
both. -/
theorem custom_exceeds_requested_count :
    generate_test_points tool100 1 "custom" (some [(1, 1), (2, 2)]) rng0
      = .ok [(1, 1), (2, 2)] ∧
    ¬((([((1 : Int), (1 : Int)), (2, 2)] : List (Int × Int))).length ≤ 1) :=
  ⟨rfl, by decide⟩

/-- Witness for the amended C5 with the random strategy on `tool100`. -/
theorem sample_count_le_witness :
    (([((10 : Int), (10 : Int)), (10, 10), (10, 10)] :
        List (Int × Int))).length ≤ 3 ∧
    ("random" = "strategic" →
      (([((10 : Int), (10 : Int)), (10, 10), (10, 10)] :
          List (Int × Int))).length ≤ 8) :=
  sample_count_le tool100 img100 rfl 3 "random" none rng0
    [(10, 10), (10, 10), (10, 10)] (Or.inl rfl) rfl

/-- C6 (amended): every coordinate produced by the custom, random and
grid strategies lies strictly inside the image bounds; for the strategic
strategy the same holds provided the image is at least 51 x 51 (its
margin-50 candidates leave smaller images). -/
theorem generate_points_in_bounds (t : ImageComparisonTool) (img : Image)
    (n : Nat) (method : String) (custom : Option (List (Int × Int)))
    (rng : Nat → Nat) (pts : List (Int × Int))
    (himg : t.reference_image = some img)
    (hw0 : 0 < img.width) (hh0 : 0 < img.height)
    (hstrat : method = "strategic" → 51 ≤ img.width ∧ 51 ≤ img.height)
    (hok : generate_test_points t n method custom rng = .ok pts) :
    ∀ p ∈ pts, 0 ≤ p.1 ∧ p.1 < (img.width : Int) ∧
      0 ≤ p.2 ∧ p.2 < (img.height : Int) := by
  by_cases hm1 : method = "custom"
  · subst hm1
    rw [generate_custom_match t img himg n custom rng] at hok
    injection hok with hok
    subst hok
    intro p hp
    rcases custom with _ | ⟨_ | ⟨q, qs⟩⟩
    · cases hp
    · cases hp
    · have hb := (List.mem_filter.mp hp).2
      rw [inBounds, decide_eq_true_iff] at hb
      exact hb
  by_cases hm2 : method = "random"
  · subst hm2
    rw [generate_eq_random t img himg n custom rng] at hok
    intro p hp
    have hb := randomPoints_ok_mem img.width img.height rng n 0 pts hok p hp
    omega
  by_cases hm3 : method = "grid"
  · subst hm3
    rw [generate_eq_grid t img himg n custom rng] at hok
    by_cases hc : floorSqrt n = 0
    · rw [gridPoints_err _ _ _ hc] at hok
      exact Except.noConfusion hok
    · rw [gridPoints_ok _ _ _ hc] at hok
      injection hok with hok
      subst hok
      intro p hp
      have hp2 := List.mem_of_mem_take hp
      obtain ⟨i, hi, hmem2⟩ := List.mem_flatMap.mp hp2
      obtain ⟨j, hj, rfl⟩ := List.mem_map.mp hmem2
      rw [List.mem_range] at hi hj
      have hx := lattice_coord_lt (j + 1) img.width (floorSqrt n) hw0 hj
      have hy := lattice_coord_lt (i + 1) img.height
        ((n + floorSqrt n - 1) / floorSqrt n) hh0 hi
      refine ⟨Int.natCast_nonneg _, ?_, Int.natCast_nonneg _, ?_⟩
      · dsimp only
        exact_mod_cast hx
      · dsimp only
        exact_mod_cast hy
  by_cases hm4 : method = "strategic"
  · subst hm4
    rw [generate_eq_strategic t img himg n custom rng] at hok
    injection hok with hok
    subst hok
    obtain ⟨hw51, hh51⟩ := hstrat rfl
    intro p hp
    simp only [strategicPoints] at hp
    have hp2 := List.mem_of_mem_take hp
    simp only [List.mem_cons, List.not_mem_nil, or_false] at hp2
    rcases hp2 with rfl | rfl | rfl | rfl | rfl | rfl | rfl | rfl <;>
      dsimp only <;> omega
  · rw [generate_unknown_method t img himg n method custom rng
      hm1 hm2 hm3 hm4] at hok
    injection hok with hok
    subst hok
    intro p hp
    cases hp

/-- Counterexample for C6: on a 40 x 40 image the strategic strategy
returns the candidate (50, 50), which lies outside the image. -/
theorem strategic_out_of_bounds :
    generate_test_points tool40 1 "strategic" none rng0 = .ok [(50, 50)] ∧
    ¬((50 : Int) < (img40.width : Int)) :=
  ⟨rfl, by decide⟩

/-- Witness for the amended C6 with the grid strategy on `tool100`. -/
theorem generate_points_in_bounds_witness :
    0 ≤ (((33 : Int), (33 : Int)) : Int × Int).1 ∧
    (((33 : Int), (33 : Int)) : Int × Int).1 < (img100.width : Int) ∧
    0 ≤ (((33 : Int), (33 : Int)) : Int × Int).2 ∧
    (((33 : Int), (33 : Int)) : Int × Int).2 < (img100.height : Int) :=
  generate_points_in_bounds tool100 img100 4 "grid" none rng0
    [(33, 33), (66, 33), (33, 66), (66, 66)] rfl (by decide) (by decide)
    (fun h => absurd h (by decide)) rfl (33, 33) (by decide)

/-- C7 (amended): with no reference image loaded the sampler returns the
empty list for every strategy, but degenerate dimensions or counts do
raise: the grid strategy divides by zero at count 0, and the random
strategy raises `ValueError` on images narrower or shorter than 20
pixels. -/
theorem degenerate_sampler_behavior :
    (∀ (t : ImageComparisonTool) (n : Nat) (method : String)
        (custom : Option (List (Int × Int))) (rng : Nat → Nat),
      t.reference_image = none →
      generate_test_points t n method custom rng = .ok []) ∧
    (∀ (t : ImageComparisonTool) (img : Image)
        (custom : Option (List (Int × Int))) (rng : Nat → Nat),
      t.reference_image = some img →
      generate_test_points t 0 "grid" custom rng = .error ()) ∧
    (∀ (t : ImageComparisonTool) (img : Image) (n : Nat)
        (custom : Option (List (Int × Int))) (rng : Nat → Nat),
      t.reference_image = some img → 1 ≤ n →
      (img.width < 20 ∨ img.height < 20) →
      generate_test_points t n "random" custom rng = .error ()) := by
  refine ⟨?_, ?_, ?_⟩
  · intro t n method custom rng h
    unfold generate_test_points
    rw [h]
  · intro t img custom rng himg
    rw [generate_eq_grid t img himg 0 custom rng]
    rfl
  · intro t img n custom rng himg hn hdeg
    rw [generate_eq_random t img himg n custom rng]
    obtain ⟨m, rfl⟩ : ∃ m, n = m + 1 := ⟨n - 1, by omega⟩
    unfold randomPoints
    by_cases hwc : (10 : Int) ≤ (img.width : Int) - 10
    · have hhc : ¬((10 : Int) ≤ (img.height : Int) - 10) := by
        rcases hdeg with h | h <;> omega
      unfold randint
      rw [if_pos hwc, if_neg hhc]
      rfl
    · unfold randint
      rw [if_neg hwc]
      rfl

/-- Counterexample for C7: two degenerate inputs that raise instead of
returning empty — the grid strategy at count 0 (`ZeroDivisionError`) and
the random strategy on a 15 x 15 image (`ValueError`). -/
theorem sampler_raises_on_degenerate :
    generate_test_points tool100 0 "grid" none rng0 = .error () ∧
    generate_test_points tool15 1 "random" none rng0 = .error () :=
  ⟨rfl, rfl⟩

/-- Witness for the amended C7 at the concrete unloaded engine. -/
theorem degenerate_sampler_behavior_witness :
    generate_test_points toolEmpty 8 "random" none rng0 = .ok [] :=
  degenerate_sampler_behavior.1 toolEmpty 8 "random" none rng0 rfl

/-- Counterexample for C8: the grid strategy with count 8 on 800 x 600
does not produce a 3 x 3 lattice truncation — it produces the
2-column, 4-row lattice instead. -/
theorem grid_800x600_not_3x3 :
    generate_test_points tool800 8 "grid" none rng0 = .ok grid800points ∧
    grid800points ≠ grid800threeByThree :=
  ⟨rfl, by decide⟩

/-- C8 (amended): the grid strategy with count 8 on an 800 x 600 image
uses `cols = floor(sqrt 8) = 2` and `rows = ceil(8 / 2) = 4`, returning
exactly 8 lattice points, none of which lies on the image border. -/
theorem grid_800x600_scenario :
    floorSqrt 8 = 2 ∧ (8 + floorSqrt 8 - 1) / floorSqrt 8 = 4 ∧
    generate_test_points tool800 8 "grid" none rng0 = .ok grid800points ∧
    grid800points.length = 8 ∧
    (∀ p ∈ grid800points, 0 < p.1 ∧ p.1 < 799 ∧ 0 < p.2 ∧ p.2 < 599) :=
  ⟨rfl, rfl, rfl, rfl, by decide⟩
